import Mathlib

/-!
Verification of the connection admission, registry-consistency and
broadcast-dispatch engine of the `chat-app-rs` repository.

The Rust sources are embedded shallowly:

* `src/domain/value_object.rs` → `ClientId.new`, `MessageContent.new`
  (Rust `String::len` is the UTF-8 byte count, embedded as `rustLen`);
* `src/server/handler.rs` → `handlerAdmission` (the `websocket_handler`
  check-then-insert critical section), `roomConnectedMessage`,
  `participantJoinedBroadcast`, `wrapIncomingText` / `relayChat` /
  `handleTextFrame` (the inbound-relay task body) and `handlerDisconnect`
  (the post-`select!` cleanup block);
* `src/infrastructure/repository/inmemory/room.rs` →
  `RepoState.add_participant`, `RepoState.remove_participant` and the
  query accessors;
* the `Room` entity (`src/domain/entity.rs` is not part of the sources,
  only its declarations and callers are) is modelled from the spec.

A `tokio::sync::mpsc::UnboundedSender` is observable in the embedded code
only through whether `send` succeeds (the receiver may have been dropped),
so a channel is embedded as a `senderClosed : Bool` flag, and every
delivery attempt succeeds exactly when the flag is `false`.
-/

namespace ChatApp

/-- Embedding of Rust `String::len`: the length of the string in UTF-8
bytes (Rust strings are UTF-8, `len` returns the byte count). -/
def rustLen (s : String) : Nat :=
  (s.data.map Char.utf8Size).sum

/-- Validation errors of the value objects, from `src/domain/error.rs`
(`ValueObjectError`; the `RoomId` variants are not needed here). -/
inductive ValueObjectError where
  | ClientIdEmpty
  | ClientIdTooLong (max actual : Nat)
  | MessageContentEmpty
  | MessageContentTooLong (max actual : Nat)
  deriving DecidableEq

/-- `ClientId` value object from `src/domain/value_object.rs`: a
validated identity string. -/
structure ClientId where
  val : String
  deriving DecidableEq

/-- Embedding of `ClientId::new` (`src/domain/value_object.rs` lines
27-39): reject the empty string, reject byte length over 100. -/
def ClientId.new (id : String) : Except ValueObjectError ClientId :=
  if id = "" then .error .ClientIdEmpty
  else if 100 < rustLen id then .error (.ClientIdTooLong 100 (rustLen id))
  else .ok ⟨id⟩

/-- `MessageContent` value object from `src/domain/value_object.rs`. -/
structure MessageContent where
  val : String
  deriving DecidableEq

/-- Embedding of `MessageContent::new` (`src/domain/value_object.rs`
lines 147-159): reject the empty string, reject byte length over
10000. -/
def MessageContent.new (content : String) : Except ValueObjectError MessageContent :=
  if content = "" then .error .MessageContentEmpty
  else if 10000 < rustLen content then
    .error (.MessageContentTooLong 10000 (rustLen content))
  else .ok ⟨content⟩

/-- `ClientInfo` from the server state (`src/server/handler.rs` usage and
`src/infrastructure/repository/inmemory/room.rs`): the outbound channel
sender plus the connect time.  The sender is observable only through
send success/failure, embedded as `senderClosed`. -/
structure ClientInfo where
  senderClosed : Bool
  connected_at : Int
  deriving DecidableEq

/-- The connection registry `connected_clients : HashMap<String, ClientInfo>`
embedded as an association list (one entry per key in every state the
embedded operations produce). -/
abbrev Registry := List (String × ClientInfo)

/-- Embedding of `HashMap::contains_key`. -/
def containsKey (r : Registry) (k : String) : Bool :=
  r.any (fun p => p.1 == k)

/-- Embedding of `HashMap::insert`: replace the entry if the key is
present, otherwise add a fresh entry. -/
def hmInsert (r : Registry) (k : String) (v : ClientInfo) : Registry :=
  if containsKey r k then
    r.map (fun p => if p.1 == k then (k, v) else p)
  else r ++ [(k, v)]

/-- Embedding of `HashMap::remove` restricted to its effect on the map:
drop the entry with the given key. -/
def removeKey (r : Registry) (k : String) : Registry :=
  r.filter (fun p => p.1 != k)

/-- Embedding of `HashMap::get` (by key, returning the value). -/
def hmFind? : Registry → String → Option ClientInfo
  | [], _ => none
  | p :: rest, k => if p.1 == k then some p.2 else hmFind? rest k

/-- Message discriminants, modelled from the spec's protocol-envelope
table (the `types` module is not part of the sources). -/
inductive MessageType where
  | roomConnected
  | participantJoined
  | participantLeft
  | chat
  deriving DecidableEq

/-- Chat wire envelope `ChatMessage { type, client_id, content, timestamp }`,
modelled from the spec's envelope table and the handler's field usage. -/
structure ChatMessage where
  type : MessageType
  client_id : String
  content : String
  timestamp : Int
  deriving DecidableEq

/-- `ParticipantInfo { client_id, connected_at }`, modelled from the
spec's envelope table and the handler's field usage. -/
structure ParticipantInfo where
  client_id : String
  connected_at : Int
  deriving DecidableEq

/-- `RoomConnectedMessage`, modelled from the spec's envelope table. -/
structure RoomConnectedMessage where
  type : MessageType
  participants : List ParticipantInfo
  deriving DecidableEq

/-- `ParticipantJoinedMessage`, modelled from the spec's envelope table. -/
structure ParticipantJoinedMessage where
  type : MessageType
  client_id : String
  connected_at : Int
  deriving DecidableEq

/-- `ParticipantLeftMessage`, modelled from the spec's envelope table. -/
structure ParticipantLeftMessage where
  type : MessageType
  client_id : String
  disconnected_at : Int
  deriving DecidableEq

/-- Modelled from the spec: `Participant` (`src/domain/entity.rs` is not
part of the sources) is an identity together with its join time; the
identity is embedded by the `ClientId`'s inner string. -/
structure Participant where
  id : String
  connected_at : Int
  deriving DecidableEq

/-- Modelled from the spec: a `ChatRecord` of the Room aggregate. -/
structure RoomChatMessage where
  from_id : String
  content : String
  timestamp : Int
  deriving DecidableEq

/-- Modelled from the spec: `RoomError` (capacity violations of the Room
aggregate, `src/domain/error.rs` has the matching declarations). -/
inductive RoomError where
  | CapacityExceeded (capacity current : Nat)
  | MessageCapacityExceeded (capacity current : Nat)
  deriving DecidableEq

/-- Modelled from the spec: the `Room` aggregate — ordered participants,
bounded message history, configured capacities. -/
structure Room where
  participants : List Participant
  messages : List RoomChatMessage
  participantCapacity : Nat
  messageCapacity : Nat
  deriving DecidableEq

/-- Modelled from the spec: `Room::add_participant` — compare the current
participant count against the configured capacity, fail closed with a
capacity error, otherwise append in insertion order. -/
def Room.addParticipant (room : Room) (p : Participant) : Except RoomError Room :=
  if room.participantCapacity ≤ room.participants.length then
    .error (.CapacityExceeded room.participantCapacity room.participants.length)
  else .ok { room with participants := room.participants ++ [p] }

/-- Modelled from the spec: `Room::remove_participant` — idempotent
removal by identity, no error if absent. -/
def Room.removeParticipant (room : Room) (id : String) : Room :=
  { room with participants := room.participants.filter (fun p => p.id != id) }

/-- Modelled from the spec: `Room::add_message` — capacity-checked append
to the message history. -/
def Room.addMessage (room : Room) (m : RoomChatMessage) : Except RoomError Room :=
  if room.messageCapacity ≤ room.messages.length then
    .error (.MessageCapacityExceeded room.messageCapacity room.messages.length)
  else .ok { room with messages := room.messages ++ [m] }

/-- `RepositoryError` from `src/domain/error.rs`. -/
inductive RepositoryError where
  | ParticipantNotFound (id : String)
  | ClientInfoNotFound (id : String)
  | RoomNotFound
  deriving DecidableEq

/-- The shared mutable state: the `connected_clients` registry and the
`Room` aggregate, the two stores owned by `InMemoryRoomRepository`
(`src/infrastructure/repository/inmemory/room.rs`) and shared with the
server handlers. -/
structure RepoState where
  connected_clients : Registry
  room : Room
  deriving DecidableEq

/-- The empty initial state: no registered clients, a fresh room with the
given capacities. -/
def initState (pcap mcap : Nat) : RepoState :=
  { connected_clients := [],
    room := { participants := [], messages := [], participantCapacity := pcap,
              messageCapacity := mcap } }

/-- Embedding of `InMemoryRoomRepository::add_participant`
(`src/infrastructure/repository/inmemory/room.rs` lines 62-89): first try
the Room aggregate's add (mapping its error to `ParticipantNotFound`);
only on success insert into `connected_clients`.  The Rust method mutates
`&self` and returns a `Result<(), _>`; the embedding returns the result
together with the post-state. -/
def RepoState.add_participant (s : RepoState) (client_id : ClientId)
    (senderClosed : Bool) (timestamp : Int) :
    Except RepositoryError Unit × RepoState :=
  match s.room.addParticipant { id := client_id.val, connected_at := timestamp } with
  | .error _ => (.error (.ParticipantNotFound client_id.val), s)
  | .ok room' =>
      let clients' :=
        hmInsert s.connected_clients client_id.val
          { senderClosed := senderClosed, connected_at := timestamp }
      (.ok (), { connected_clients := clients', room := room' })

/-- Embedding of `InMemoryRoomRepository::remove_participant`
(`src/infrastructure/repository/inmemory/room.rs` lines 91-105): remove
from `connected_clients`, returning `ClientInfoNotFound` when the key is
absent (the map is unchanged in that case and the room is not touched);
only after a successful registry removal remove from the room. -/
def RepoState.remove_participant (s : RepoState) (client_id : ClientId) :
    Except RepositoryError Unit × RepoState :=
  if containsKey s.connected_clients client_id.val then
    (.ok (),
     { connected_clients := removeKey s.connected_clients client_id.val,
       room := s.room.removeParticipant client_id.val })
  else (.error (.ClientInfoNotFound client_id.val), s)

/-- Embedding of `InMemoryRoomRepository::count_connected_clients`. -/
def RepoState.count_connected_clients (s : RepoState) : Nat :=
  s.connected_clients.length

/-- Embedding of the admission critical section of `websocket_handler`
(`src/server/handler.rs` lines 39-55): under one lock of
`connected_clients`, reject with HTTP 409 (`StatusCode::CONFLICT`) if the
identity is already a key, otherwise insert a `ClientInfo` with a fresh
(open) channel.  The room aggregate does not appear in the handler. -/
def handlerAdmission (s : RepoState) (client_id : String) (connected_at : Int) :
    Except Nat Unit × RepoState :=
  if containsKey s.connected_clients client_id then
    (.error 409, s)
  else
    let clients' :=
      hmInsert s.connected_clients client_id
        { senderClosed := false, connected_at := connected_at }
    (.ok (), { s with connected_clients := clients' })

/-- A delivery attempt on a channel: `UnboundedSender::send` succeeds
exactly when the receiver is still alive. -/
def attemptSend (info : ClientInfo) : Bool :=
  !info.senderClosed

/-- Embedding of the fan-out loops that skip the sender
(`src/server/handler.rs` lines 110-117 for participant-joined and lines
170-178 for chat relay): iterate over all registry entries, skip the
excluded identity, attempt a send on every other entry; a failed send is
only logged.  The result collects the identities delivered to and the
identities whose send failed, in iteration order. -/
def broadcastToOthers : Registry → String → List String × List String
  | [], _ => ([], [])
  | p :: rest, ex =>
    let (d, f) := broadcastToOthers rest ex
    if p.1 == ex then (d, f)
    else if attemptSend p.2 then (p.1 :: d, f) else (d, p.1 :: f)

/-- Embedding of the participant-left fan-out loop
(`src/server/handler.rs` lines 227-231): iterate over all remaining
registry entries with no exclusion test, attempt a send on each, log
failures. -/
def broadcastAll : Registry → List String × List String
  | [] => ([], [])
  | p :: rest =>
    let (d, f) := broadcastAll rest
    if attemptSend p.2 then (p.1 :: d, f) else (d, p.1 :: f)

/-- Embedding of the `RoomConnected` snapshot sent to a newly admitted
participant (`src/server/handler.rs` lines 71-91): under one lock of the
registry, map every entry to a `ParticipantInfo`. -/
def roomConnectedMessage (clients : Registry) : RoomConnectedMessage :=
  { type := .roomConnected,
    participants :=
      clients.map (fun p => { client_id := p.1, connected_at := p.2.connected_at }) }

/-- Embedding of the participant-joined broadcast
(`src/server/handler.rs` lines 100-119): build the
`ParticipantJoinedMessage` and fan it out to every entry other than the
new participant. -/
def participantJoinedBroadcast (clients : Registry) (client_id : String)
    (connected_at : Int) : ParticipantJoinedMessage × (List String × List String) :=
  ({ type := .participantJoined, client_id := client_id, connected_at := connected_at },
   broadcastToOthers clients client_id)

/-- Embedding of the parse step of the inbound-relay task
(`src/server/handler.rs` lines 140-152): the result of
`serde_json::from_str::<ChatMessage>` is passed in as an oracle; on parse
failure the raw text is wrapped as a best-effort chat envelope with
`client_id` "unknown" and timestamp 0. -/
def wrapIncomingText (parsed : Option ChatMessage) (text : String) : ChatMessage :=
  match parsed with
  | .some msg => msg
  | .none => { type := .chat, client_id := "unknown", content := text, timestamp := 0 }

/-- Embedding of the relay step of the inbound-relay task
(`src/server/handler.rs` lines 154-178): rebuild the response envelope
preserving the parsed message's `client_id`, `content` and `timestamp`,
then fan it out to every registry entry except the connection's own
identity (`client_id_clone`). -/
def relayChat (clients : Registry) (conn_id : String) (chat_msg : ChatMessage) :
    ChatMessage × (List String × List String) :=
  ({ type := .chat, client_id := chat_msg.client_id, content := chat_msg.content,
     timestamp := chat_msg.timestamp },
   broadcastToOthers clients conn_id)

/-- Embedding of the whole text-frame arm of the inbound-relay task
(`src/server/handler.rs` lines 136-178): wrap the (possibly failed)
parse, then relay. -/
def handleTextFrame (clients : Registry) (conn_id : String)
    (parsed : Option ChatMessage) (text : String) :
    ChatMessage × (List String × List String) :=
  relayChat clients conn_id (wrapIncomingText parsed text)

/-- Embedding of the disconnect cleanup block of `handle_socket`
(`src/server/handler.rs` lines 210-233): under one lock of the registry,
remove the connection's identity, then broadcast a `ParticipantLeft`
event to every remaining entry (no exclusion test).  The room aggregate
does not appear in the handler. -/
def handlerDisconnect (s : RepoState) (client_id : String) (disconnected_at : Int) :
    RepoState × ParticipantLeftMessage × (List String × List String) :=
  let clients' := removeKey s.connected_clients client_id
  ({ s with connected_clients := clients' },
   { type := .participantLeft, client_id := client_id, disconnected_at := disconnected_at },
   broadcastAll clients')

/-- A completed operation on the shared state: the two handler paths
(`websocket_handler` admission and `handle_socket` disconnect cleanup,
which touch only the registry) and the two repository mutations (which
touch both stores).  An operation that returns an error still completes,
leaving the state its error path leaves. -/
inductive SysOp where
  | connect (id : String) (ts : Int)
  | disconnect (id : String) (ts : Int)
  | repoAdd (id : String) (ts : Int)
  | repoRemove (id : String)

/-- Effect of one completed operation on the shared state. -/
def applyOp (s : RepoState) : SysOp → RepoState
  | .connect id ts => (handlerAdmission s id ts).2
  | .disconnect id ts => (handlerDisconnect s id ts).1
  | .repoAdd id ts => (s.add_participant ⟨id⟩ false ts).2
  | .repoRemove id => (s.remove_participant ⟨id⟩).2

/-- Effect of a sequence of completed operations. -/
def applyOps (s : RepoState) (ops : List SysOp) : RepoState :=
  ops.foldl applyOp s

/-- States reachable from an empty room by completed repository
operations in which no `add_participant` re-uses an identity that is
already a key of the registry (removals, successful or not, are
unrestricted; a failed add leaves the state unchanged and so stays
within the reachable set). -/
inductive RepoReach : RepoState → Prop where
  | init (pcap mcap : Nat) : RepoReach (initState pcap mcap)
  | add {s : RepoState} (id : String) (closed : Bool) (ts : Int) :
      RepoReach s → containsKey s.connected_clients id = false →
      RepoReach (s.add_participant ⟨id⟩ closed ts).2
  | remove {s : RepoState} (id : String) :
      RepoReach s → RepoReach (s.remove_participant ⟨id⟩).2

end ChatApp

namespace ChatApp

theorem containsKey_iff (r : Registry) (k : String) :
    containsKey r k = true ↔ k ∈ r.map (fun p => p.1) := by
  simp [containsKey, List.any_eq_true]

theorem hmInsert_of_not_contains (r : Registry) (k : String) (v : ClientInfo)
    (h : containsKey r k = false) : hmInsert r k v = r ++ [(k, v)] := by
  simp [hmInsert, h]

theorem broadcastToOthers_eq (r : Registry) (ex : String) :
    broadcastToOthers r ex =
      ((r.filter (fun p => p.1 != ex && attemptSend p.2)).map (fun p => p.1),
       (r.filter (fun p => p.1 != ex && !attemptSend p.2)).map (fun p => p.1)) := by
  induction r with
  | nil => rfl
  | cons p rest ih =>
    cases hb : (p.1 == ex) with
    | true => simp [broadcastToOthers, ih, List.filter_cons, bne, hb]
    | false =>
      cases hs : attemptSend p.2 <;>
        simp [broadcastToOthers, ih, List.filter_cons, bne, hb, hs]

theorem broadcastAll_eq (r : Registry) :
    broadcastAll r =
      ((r.filter (fun p => attemptSend p.2)).map (fun p => p.1),
       (r.filter (fun p => !attemptSend p.2)).map (fun p => p.1)) := by
  induction r with
  | nil => rfl
  | cons p rest ih =>
    cases hs : attemptSend p.2 <;> simp [broadcastAll, hs, ih, List.filter_cons]

theorem not_mem_broadcastToOthers_fst (r : Registry) (ex : String) :
    ex ∉ (broadcastToOthers r ex).1 := by
  rw [broadcastToOthers_eq]
  simp only [List.mem_map, List.mem_filter, Bool.and_eq_true, bne_iff_ne, ne_eq]
  rintro ⟨p, ⟨_, hne, _⟩, rfl⟩
  exact hne rfl

theorem not_mem_broadcastToOthers_snd (r : Registry) (ex : String) :
    ex ∉ (broadcastToOthers r ex).2 := by
  rw [broadcastToOthers_eq]
  simp only [List.mem_map, List.mem_filter, Bool.and_eq_true, bne_iff_ne, ne_eq]
  rintro ⟨p, ⟨_, hne, _⟩, rfl⟩
  exact hne rfl

theorem mem_broadcastToOthers_fst (r : Registry) (ex k : String) (info : ClientInfo)
    (hmem : (k, info) ∈ r) (hne : k ≠ ex) (hopen : info.senderClosed = false) :
    k ∈ (broadcastToOthers r ex).1 := by
  rw [broadcastToOthers_eq]
  simp only [List.mem_map, List.mem_filter, Bool.and_eq_true, bne_iff_ne, ne_eq]
  exact ⟨(k, info), ⟨hmem, hne, by simp [attemptSend, hopen]⟩, rfl⟩

theorem mem_broadcastToOthers_snd (r : Registry) (ex k : String) (info : ClientInfo)
    (hmem : (k, info) ∈ r) (hne : k ≠ ex) (hclosed : info.senderClosed = true) :
    k ∈ (broadcastToOthers r ex).2 := by
  rw [broadcastToOthers_eq]
  simp only [List.mem_map, List.mem_filter, Bool.and_eq_true, bne_iff_ne, ne_eq]
  exact ⟨(k, info), ⟨hmem, hne, by simp [attemptSend, hclosed]⟩, rfl⟩

theorem mem_broadcastToOthers_union (r : Registry) (ex k : String) :
    k ∈ (broadcastToOthers r ex).1 ++ (broadcastToOthers r ex).2 ↔
      containsKey r k = true ∧ k ≠ ex := by
  rw [broadcastToOthers_eq, containsKey_iff]
  simp only [List.mem_append, List.mem_map, List.mem_filter, Bool.and_eq_true,
    bne_iff_ne, ne_eq]
  constructor
  · rintro (⟨p, ⟨hp, hne, _⟩, rfl⟩ | ⟨p, ⟨hp, hne, _⟩, rfl⟩) <;>
      exact ⟨⟨p, hp, rfl⟩, hne⟩
  · rintro ⟨⟨p, hp, rfl⟩, hne⟩
    cases hs : attemptSend p.2 with
    | true => exact Or.inl ⟨p, ⟨hp, hne, hs⟩, rfl⟩
    | false => exact Or.inr ⟨p, ⟨hp, hne, by simp [hs]⟩, rfl⟩

theorem mem_broadcastAll_fst (r : Registry) (k : String) (info : ClientInfo)
    (hmem : (k, info) ∈ r) (hopen : info.senderClosed = false) :
    k ∈ (broadcastAll r).1 := by
  rw [broadcastAll_eq]
  simp only [List.mem_map, List.mem_filter]
  exact ⟨(k, info), ⟨hmem, by simp [attemptSend, hopen]⟩, rfl⟩

theorem mem_broadcastAll_union (r : Registry) (k : String) :
    k ∈ (broadcastAll r).1 ++ (broadcastAll r).2 ↔ containsKey r k = true := by
  rw [broadcastAll_eq, containsKey_iff]
  simp only [List.mem_append, List.mem_map, List.mem_filter]
  constructor
  · rintro (⟨p, ⟨hp, _⟩, rfl⟩ | ⟨p, ⟨hp, _⟩, rfl⟩) <;> exact ⟨p, hp, rfl⟩
  · rintro ⟨p, hp, rfl⟩
    cases hs : attemptSend p.2 with
    | true => exact Or.inl ⟨p, ⟨hp, hs⟩, rfl⟩
    | false => exact Or.inr ⟨p, ⟨hp, by simp [hs]⟩, rfl⟩

theorem containsKey_removeKey (r : Registry) (k0 k : String) :
    containsKey (removeKey r k0) k = true ↔ containsKey r k = true ∧ k ≠ k0 := by
  simp only [containsKey, removeKey, List.any_eq_true, List.mem_filter,
    bne_iff_ne, ne_eq, beq_iff_eq]
  constructor
  · rintro ⟨p, ⟨hp, hne⟩, rfl⟩
    exact ⟨⟨p, hp, rfl⟩, hne⟩
  · rintro ⟨⟨p, hp, rfl⟩, hne⟩
    exact ⟨p, ⟨hp, hne⟩, rfl⟩

theorem containsKey_removeKey_self (r : Registry) (k : String) :
    containsKey (removeKey r k) k = false := by
  rw [← Bool.not_eq_true]
  intro h
  exact ((containsKey_removeKey r k k).mp h).2 rfl

theorem hmFind?_append_self (r : Registry) (k : String) (v : ClientInfo)
    (h : containsKey r k = false) : hmFind? (r ++ [(k, v)]) k = some v := by
  induction r with
  | nil => simp [hmFind?]
  | cons p rest ih =>
    simp only [containsKey, List.any_cons, Bool.or_eq_false_iff] at h
    simp [hmFind?, h.1, ih (by simpa [containsKey] using h.2)]

theorem map_filter_keyNe {α : Type} (f : α → String) (l : List α) (id : String) :
    (l.filter (fun a => f a != id)).map f = (l.map f).filter (fun k => k != id) := by
  induction l with
  | nil => rfl
  | cons a rest ih => cases hb : (f a != id) <;> simp [List.filter_cons, hb, ih]

theorem length_le_rustLen (s : String) : s.length ≤ rustLen s := by
  show s.data.length ≤ (s.data.map Char.utf8Size).sum
  induction s.data with
  | nil => simp
  | cons c cs ih =>
    have hc : 1 ≤ c.utf8Size := Char.utf8Size_pos c
    simp only [List.length_cons, List.map_cons, List.sum_cons]
    omega

theorem rustLen_replicate (n : Nat) (c : Char) :
    rustLen (String.mk (List.replicate n c)) = n * c.utf8Size := by
  unfold rustLen
  simp [List.map_replicate, List.sum_replicate, smul_eq_mul, Nat.mul_comm]

/-- Registry keys and aggregate participant identities stay pointwise
equal along every reachable repository state. -/
theorem repoReach_keys_eq {s : RepoState} (h : RepoReach s) :
    s.connected_clients.map (fun p => p.1) =
      s.room.participants.map (fun p => p.id) := by
  induction h with
  | init pcap mcap => rfl
  | add id closed ts hs hfresh ih =>
    rename_i s'
    cases hroom : s'.room.addParticipant { id := id, connected_at := ts } with
    | error e => simp [RepoState.add_participant, hroom, ih]
    | ok room' =>
      have hparts : room'.participants =
          s'.room.participants ++ [{ id := id, connected_at := ts }] := by
        unfold Room.addParticipant at hroom
        split at hroom
        · exact absurd hroom (by simp)
        · cases hroom
          rfl
      simp [RepoState.add_participant, hroom,
        hmInsert_of_not_contains _ _ _ hfresh, hparts, ih]
  | remove id hs ih =>
    rename_i s'
    cases hc : containsKey s'.connected_clients id with
    | false => simp [RepoState.remove_participant, hc, ih]
    | true =>
      simp only [RepoState.remove_participant, hc, if_true, Room.removeParticipant,
        removeKey]
      rw [map_filter_keyNe (fun p : String × ClientInfo => p.1) s'.connected_clients id,
        map_filter_keyNe (fun p : Participant => p.id) s'.room.participants id, ih]

/-- C2: duplicate-identity admission.  If the candidate identity is
already a key of the connection registry, `websocket_handler` rejects the
request with HTTP 409 and the whole state (registry and room membership)
is unchanged; if the identity is not present, the handler registers
exactly one entry for that identity (the registry is extended by exactly
the one new entry), does not touch the room, and does not reject with
409. -/
theorem duplicate_identity_admission (s : RepoState) (id : String) (t : Int) :
    (containsKey s.connected_clients id = true →
      handlerAdmission s id t = (.error 409, s)) ∧
    (containsKey s.connected_clients id = false →
      (handlerAdmission s id t).1 = .ok () ∧
      (handlerAdmission s id t).2.connected_clients =
        s.connected_clients ++ [(id, { senderClosed := false, connected_at := t })] ∧
      (handlerAdmission s id t).2.room = s.room) := by
  constructor
  · intro h
    simp [handlerAdmission, h]
  · intro h
    refine ⟨?_, ?_, ?_⟩ <;> simp [handlerAdmission, h, hmInsert_of_not_contains]

/-- Witness for C2 at a concrete state: "alice" already registered is
rejected with 409 leaving the state unchanged, while fresh "bob" is
admitted with exactly one new entry. -/
theorem duplicate_identity_admission_witness :
    (handlerAdmission
        { connected_clients := [("alice", { senderClosed := false, connected_at := 5 })],
          room := (initState 10 100).room } "alice" 7 =
      (.error 409,
       { connected_clients := [("alice", { senderClosed := false, connected_at := 5 })],
         room := (initState 10 100).room })) ∧
    (handlerAdmission
        { connected_clients := [("alice", { senderClosed := false, connected_at := 5 })],
          room := (initState 10 100).room } "bob" 7).2.connected_clients =
      [("alice", { senderClosed := false, connected_at := 5 }),
       ("bob", { senderClosed := false, connected_at := 7 })] := by
  constructor
  · exact (duplicate_identity_admission
      { connected_clients := [("alice", { senderClosed := false, connected_at := 5 })],
        room := (initState 10 100).room } "alice" 7).1 (by decide)
  · exact ((duplicate_identity_admission
      { connected_clients := [("alice", { senderClosed := false, connected_at := 5 })],
        room := (initState 10 100).room } "bob" 7).2 (by decide)).2.1

/-- C1, counterexample: the claim fails as stated.  The state reached
from an empty room by the single completed admission operation
`websocket_handler("alice")` has one identity in the connection registry
but zero participants in the Room aggregate, because the handler's
admission path inserts only into `connected_clients` and never calls the
aggregate. -/
theorem registry_aggregate_parity_counterexample :
    (applyOps (initState 10 100) [SysOp.connect "alice" 0]).count_connected_clients = 1 ∧
    (applyOps (initState 10 100) [SysOp.connect "alice" 0]).room.participants.length = 0 ∧
    (applyOps (initState 10 100) [SysOp.connect "alice" 0]).count_connected_clients ≠
      (applyOps (initState 10 100) [SysOp.connect "alice" 0]).room.participants.length := by
  refine ⟨rfl, rfl, ?_⟩
  decide

/-- C1, amended: registry/aggregate parity holds in every state reachable
from an empty room by completed repository `add_participant` /
`remove_participant` operations in which no add re-uses an identity that
is already registered: `count_connected_clients()` equals the number of
participants and the identity sets agree.  (The handler's admission and
disconnect paths update only the registry, so parity does not extend to
them — see the counterexample.) -/
theorem registry_aggregate_parity {s : RepoState} (h : RepoReach s) :
    s.count_connected_clients = s.room.participants.length ∧
    (∀ id, containsKey s.connected_clients id = true ↔
       id ∈ s.room.participants.map (fun p => p.id)) := by
  have hkeys := repoReach_keys_eq h
  constructor
  · have hlen := congrArg List.length hkeys
    simpa [RepoState.count_connected_clients] using hlen
  · intro id
    rw [containsKey_iff, hkeys]

/-- Witness for C1's amended theorem at a concrete reachable state: after
adding "alice" to the empty room through the repository, both stores hold
exactly one identity. -/
theorem registry_aggregate_parity_witness :
    ((initState 2 2).add_participant ⟨"alice"⟩ false 0).2.count_connected_clients =
      ((initState 2 2).add_participant ⟨"alice"⟩ false 0).2.room.participants.length :=
  (registry_aggregate_parity
    (RepoReach.add "alice" false 0 (RepoReach.init 2 2) (by decide))).1

/-- C3: two-store update ordering of the repository.  `add_participant`
first attempts the Room aggregate's add and inserts into the connection
registry exactly when that succeeds; on aggregate failure an error is
returned with the whole state unchanged.  `remove_participant` returns a
not-found error with neither store modified when the identity is absent
from the registry, and removes from the registry and then from the
aggregate's participant list when it is present. -/
theorem membership_update_ordering (s : RepoState) (cid : ClientId)
    (closed : Bool) (ts : Int) :
    (∀ e, s.room.addParticipant { id := cid.val, connected_at := ts } = .error e →
       s.add_participant cid closed ts = (.error (.ParticipantNotFound cid.val), s)) ∧
    (∀ room', s.room.addParticipant { id := cid.val, connected_at := ts } = .ok room' →
       (s.add_participant cid closed ts).1 = .ok () ∧
       (s.add_participant cid closed ts).2.connected_clients =
         hmInsert s.connected_clients cid.val
           { senderClosed := closed, connected_at := ts } ∧
       (s.add_participant cid closed ts).2.room = room') ∧
    (containsKey s.connected_clients cid.val = false →
       s.remove_participant cid = (.error (.ClientInfoNotFound cid.val), s)) ∧
    (containsKey s.connected_clients cid.val = true →
       (s.remove_participant cid).1 = .ok () ∧
       (s.remove_participant cid).2.connected_clients =
         removeKey s.connected_clients cid.val ∧
       (s.remove_participant cid).2.room = s.room.removeParticipant cid.val) := by
  refine ⟨?_, ?_, ?_, ?_⟩
  · intro e he
    simp [RepoState.add_participant, he]
  · intro room' hr
    refine ⟨?_, ?_, ?_⟩ <;> simp [RepoState.add_participant, hr]
  · intro h
    simp [RepoState.remove_participant, h]
  · intro h
    refine ⟨?_, ?_, ?_⟩ <;> simp [RepoState.remove_participant, h]

/-- Witness for C3 at concrete states: an aggregate at capacity makes
`add_participant` fail with the registry untouched; a successful add
registers the identity; removing an unknown identity fails with the state
unchanged. -/
theorem membership_update_ordering_witness :
    (initState 0 0).add_participant ⟨"alice"⟩ false 1 =
      (.error (.ParticipantNotFound "alice"), initState 0 0) ∧
    ((initState 2 2).add_participant ⟨"alice"⟩ false 1).2.connected_clients =
      [("alice", { senderClosed := false, connected_at := 1 })] ∧
    (initState 2 2).remove_participant ⟨"bob"⟩ =
      (.error (.ClientInfoNotFound "bob"), initState 2 2) := by
  refine ⟨?_, ?_, ?_⟩
  · exact (membership_update_ordering (initState 0 0) ⟨"alice"⟩ false 1).1
      (.CapacityExceeded 0 0) rfl
  · exact (((membership_update_ordering (initState 2 2) ⟨"alice"⟩ false 1).2.1
      { participants := [{ id := "alice", connected_at := 1 }], messages := [],
        participantCapacity := 2, messageCapacity := 2 } rfl).2.1).trans (by decide)
  · exact (membership_update_ordering (initState 2 2) ⟨"bob"⟩ false 1).2.2.1 (by decide)

/-- C4: snapshot inclusion.  For a newly admitted participant (its
identity was not registered, so `websocket_handler` accepted it and
inserted it), the `RoomConnected` snapshot taken by `handle_socket` from
the post-admission registry contains the new participant itself — its
identity and connect time appear in the participants list — and the
handler's own `clients.get(&client_id)` lookup finds its entry. -/
theorem snapshot_includes_self (s : RepoState) (id : String) (t : Int)
    (h : containsKey s.connected_clients id = false) :
    ({ client_id := id, connected_at := t } : ParticipantInfo) ∈
      (roomConnectedMessage (handlerAdmission s id t).2.connected_clients).participants ∧
    hmFind? (handlerAdmission s id t).2.connected_clients id =
      some { senderClosed := false, connected_at := t } := by
  have hreg : (handlerAdmission s id t).2.connected_clients =
      s.connected_clients ++ [(id, { senderClosed := false, connected_at := t })] := by
    simp [handlerAdmission, h, hmInsert_of_not_contains]
  constructor
  · rw [hreg]
    simp [roomConnectedMessage]
  · rw [hreg]
    exact hmFind?_append_self s.connected_clients id _ h

/-- Witness for C4: with "alice" already present, freshly admitted "bob"
appears in its own `RoomConnected` snapshot. -/
theorem snapshot_includes_self_witness :
    ({ client_id := "bob", connected_at := 9 } : ParticipantInfo) ∈
      (roomConnectedMessage (handlerAdmission
        { connected_clients := [("alice", { senderClosed := false, connected_at := 5 })],
          room := (initState 10 100).room } "bob" 9).2.connected_clients).participants :=
  (snapshot_includes_self
    { connected_clients := [("alice", { senderClosed := false, connected_at := 5 })],
      room := (initState 10 100).room } "bob" 9 (by decide)).1

/-- C5: no self-echo.  For any chat payload obtained from a connection's
inbound text frame (whether the parse succeeded or fell back), the
resulting Chat event's fan-out never targets the channel of the
connection the frame arrived on — neither a delivery nor a failed
attempt — while every other currently registered identity is targeted. -/
theorem no_self_echo (clients : Registry) (conn_id : String)
    (parsed : Option ChatMessage) (text : String) :
    conn_id ∉ (handleTextFrame clients conn_id parsed text).2.1 ∧
    conn_id ∉ (handleTextFrame clients conn_id parsed text).2.2 ∧
    (∀ k, containsKey clients k = true → k ≠ conn_id →
      k ∈ (handleTextFrame clients conn_id parsed text).2.1 ++
          (handleTextFrame clients conn_id parsed text).2.2) := by
  refine ⟨not_mem_broadcastToOthers_fst clients conn_id,
    not_mem_broadcastToOthers_snd clients conn_id, ?_⟩
  intro k hk hne
  exact (mem_broadcastToOthers_union clients conn_id k).mpr ⟨hk, hne⟩

/-- Witness for C5: with "alice" and "bob" registered, a frame arriving
on alice's connection targets bob and not alice. -/
theorem no_self_echo_witness :
    "alice" ∉ (handleTextFrame
        [("alice", { senderClosed := false, connected_at := 1 }),
         ("bob", { senderClosed := false, connected_at := 2 })] "alice"
        (some { type := .chat, client_id := "alice", content := "hi", timestamp := 3 })
        "raw").2.1 ∧
    "bob" ∈ (handleTextFrame
        [("alice", { senderClosed := false, connected_at := 1 }),
         ("bob", { senderClosed := false, connected_at := 2 })] "alice"
        (some { type := .chat, client_id := "alice", content := "hi", timestamp := 3 })
        "raw").2.1 ++
      (handleTextFrame
        [("alice", { senderClosed := false, connected_at := 1 }),
         ("bob", { senderClosed := false, connected_at := 2 })] "alice"
        (some { type := .chat, client_id := "alice", content := "hi", timestamp := 3 })
        "raw").2.2 :=
  ⟨(no_self_echo
      [("alice", { senderClosed := false, connected_at := 1 }),
       ("bob", { senderClosed := false, connected_at := 2 })] "alice"
      (some { type := .chat, client_id := "alice", content := "hi", timestamp := 3 })
      "raw").1,
   (no_self_echo
      [("alice", { senderClosed := false, connected_at := 1 }),
       ("bob", { senderClosed := false, connected_at := 2 })] "alice"
      (some { type := .chat, client_id := "alice", content := "hi", timestamp := 3 })
      "raw").2.2 "bob" (by decide) (by decide)⟩

/-- C6: best-effort broadcast.  In the sender-excluding fan-out (used for
participant-joined and chat relay) and in the fan-out over all remaining
channels (participant-left), each send attempt is independent: any
registered target with an open channel is delivered to, whatever the
state of the other channels, and a target whose channel is closed is
merely recorded as failed (and logged) — the iteration continues and no
whole-operation failure exists. -/
theorem best_effort_broadcast (r : Registry) (ex k : String) (info : ClientInfo) :
    ((k, info) ∈ r → k ≠ ex → info.senderClosed = false →
       k ∈ (broadcastToOthers r ex).1) ∧
    ((k, info) ∈ r → k ≠ ex → info.senderClosed = true →
       k ∈ (broadcastToOthers r ex).2) ∧
    ((k, info) ∈ r → info.senderClosed = false → k ∈ (broadcastAll r).1) :=
  ⟨fun h1 h2 h3 => mem_broadcastToOthers_fst r ex k info h1 h2 h3,
   fun h1 h2 h3 => mem_broadcastToOthers_snd r ex k info h1 h2 h3,
   fun h1 h2 => mem_broadcastAll_fst r k info h1 h2⟩

/-- Witness for C6: among three registered channels with bob's closed,
the participant-joined fan-out for alice still delivers to carol, and
bob's failure is only recorded. -/
theorem best_effort_broadcast_witness :
    "carol" ∈ (broadcastToOthers
      [("alice", { senderClosed := false, connected_at := 1 }),
       ("bob", { senderClosed := true, connected_at := 2 }),
       ("carol", { senderClosed := false, connected_at := 3 })] "alice").1 ∧
    "bob" ∈ (broadcastToOthers
      [("alice", { senderClosed := false, connected_at := 1 }),
       ("bob", { senderClosed := true, connected_at := 2 }),
       ("carol", { senderClosed := false, connected_at := 3 })] "alice").2 :=
  ⟨(best_effort_broadcast
      [("alice", { senderClosed := false, connected_at := 1 }),
       ("bob", { senderClosed := true, connected_at := 2 }),
       ("carol", { senderClosed := false, connected_at := 3 })] "alice" "carol"
      { senderClosed := false, connected_at := 3 }).1 (by decide) (by decide) rfl,
   (best_effort_broadcast
      [("alice", { senderClosed := false, connected_at := 1 }),
       ("bob", { senderClosed := true, connected_at := 2 }),
       ("carol", { senderClosed := false, connected_at := 3 })] "alice" "bob"
      { senderClosed := true, connected_at := 2 }).2.1 (by decide) (by decide) rfl⟩

/-- C7: malformed-frame fallback.  When the inbound text frame fails to
parse as a Chat JSON envelope, the frame is neither dropped nor rejected:
the relayed Chat event has `client_id` "unknown", timestamp 0 and the raw
frame text as content, and it is still fanned out to every other
registered identity. -/
theorem malformed_frame_fallback (clients : Registry) (conn_id text : String) :
    (handleTextFrame clients conn_id none text).1 =
      { type := .chat, client_id := "unknown", content := text, timestamp := 0 } ∧
    (∀ k, containsKey clients k = true → k ≠ conn_id →
      k ∈ (handleTextFrame clients conn_id none text).2.1 ++
          (handleTextFrame clients conn_id none text).2.2) := by
  refine ⟨rfl, ?_⟩
  intro k hk hne
  exact (mem_broadcastToOthers_union clients conn_id k).mpr ⟨hk, hne⟩

/-- Witness for C7: an unparseable frame from alice is wrapped with
client_id "unknown" and timestamp 0 and still reaches bob. -/
theorem malformed_frame_fallback_witness :
    (handleTextFrame
        [("alice", { senderClosed := false, connected_at := 1 }),
         ("bob", { senderClosed := false, connected_at := 2 })] "alice" none
        "not json").1 =
      { type := .chat, client_id := "unknown", content := "not json", timestamp := 0 } ∧
    "bob" ∈ (handleTextFrame
        [("alice", { senderClosed := false, connected_at := 1 }),
         ("bob", { senderClosed := false, connected_at := 2 })] "alice" none
        "not json").2.1 ++
      (handleTextFrame
        [("alice", { senderClosed := false, connected_at := 1 }),
         ("bob", { senderClosed := false, connected_at := 2 })] "alice" none
        "not json").2.2 :=
  ⟨(malformed_frame_fallback
      [("alice", { senderClosed := false, connected_at := 1 }),
       ("bob", { senderClosed := false, connected_at := 2 })] "alice" "not json").1,
   (malformed_frame_fallback
      [("alice", { senderClosed := false, connected_at := 1 }),
       ("bob", { senderClosed := false, connected_at := 2 })] "alice" "not json").2
     "bob" (by decide) (by decide)⟩

/-- C9: disconnect cleanup.  When a connection's task pair terminates,
the cleanup block first removes the identity from the connection registry
and then, under the same critical section, broadcasts a `ParticipantLeft`
event carrying the identity and the disconnect time; the fan-out targets
are exactly the remaining registered identities, so the departed
connection's own channel receives nothing, without any exclusion test. -/
theorem disconnect_cleanup (s : RepoState) (id : String) (t : Int) :
    (handlerDisconnect s id t).1.connected_clients = removeKey s.connected_clients id ∧
    (handlerDisconnect s id t).1.room = s.room ∧
    containsKey (handlerDisconnect s id t).1.connected_clients id = false ∧
    (handlerDisconnect s id t).2.1 =
      { type := .participantLeft, client_id := id, disconnected_at := t } ∧
    id ∉ (handlerDisconnect s id t).2.2.1 ∧
    id ∉ (handlerDisconnect s id t).2.2.2 ∧
    (∀ k, k ∈ (handlerDisconnect s id t).2.2.1 ++ (handlerDisconnect s id t).2.2.2 ↔
       containsKey s.connected_clients k = true ∧ k ≠ id) := by
  have hunion : ∀ k,
      k ∈ (handlerDisconnect s id t).2.2.1 ++ (handlerDisconnect s id t).2.2.2 ↔
        containsKey s.connected_clients k = true ∧ k ≠ id := by
    intro k
    rw [show (handlerDisconnect s id t).2.2 = broadcastAll (removeKey s.connected_clients id)
        from rfl,
      mem_broadcastAll_union, containsKey_removeKey]
  refine ⟨rfl, rfl, containsKey_removeKey_self s.connected_clients id, rfl, ?_, ?_, hunion⟩
  · intro hmem
    exact (((hunion id).mp (List.mem_append.mpr (Or.inl hmem))).2) rfl
  · intro hmem
    exact (((hunion id).mp (List.mem_append.mpr (Or.inr hmem))).2) rfl

/-- Witness for C9: when bob disconnects, bob's entry is gone, the left
event names bob, and alice is the only remaining target. -/
theorem disconnect_cleanup_witness :
    containsKey (handlerDisconnect
      { connected_clients :=
          [("alice", { senderClosed := false, connected_at := 1 }),
           ("bob", { senderClosed := false, connected_at := 2 })],
        room := (initState 10 100).room } "bob" 3).1.connected_clients "bob" = false ∧
    "alice" ∈ (handlerDisconnect
      { connected_clients :=
          [("alice", { senderClosed := false, connected_at := 1 }),
           ("bob", { senderClosed := false, connected_at := 2 })],
        room := (initState 10 100).room } "bob" 3).2.2.1 ++
      (handlerDisconnect
      { connected_clients :=
          [("alice", { senderClosed := false, connected_at := 1 }),
           ("bob", { senderClosed := false, connected_at := 2 })],
        room := (initState 10 100).room } "bob" 3).2.2.2 :=
  ⟨(disconnect_cleanup
      { connected_clients :=
          [("alice", { senderClosed := false, connected_at := 1 }),
           ("bob", { senderClosed := false, connected_at := 2 })],
        room := (initState 10 100).room } "bob" 3).2.2.1,
   ((disconnect_cleanup
      { connected_clients :=
          [("alice", { senderClosed := false, connected_at := 1 }),
           ("bob", { senderClosed := false, connected_at := 2 })],
        room := (initState 10 100).room } "bob" 3).2.2.2.2.2.2 "alice").mpr
     ⟨by decide, by decide⟩⟩

/-- C10: envelope attribution is trusted.  The relayed Chat event
reproduces the parsed inbound envelope's `client_id`, `content` and
`timestamp` verbatim — the server substitutes neither the connection's
identity nor its own clock — while the no-echo exclusion is keyed on the
connection's identity (the query-parameter `client_id`), not on the
identity named in the envelope: an envelope naming a different registered
identity is attributed to that identity, which still receives the
event. -/
theorem envelope_attribution_trusted (clients : Registry) (conn_id : String)
    (e : ChatMessage) (text : String) :
    (handleTextFrame clients conn_id (some e) text).1.client_id = e.client_id ∧
    (handleTextFrame clients conn_id (some e) text).1.content = e.content ∧
    (handleTextFrame clients conn_id (some e) text).1.timestamp = e.timestamp ∧
    conn_id ∉ (handleTextFrame clients conn_id (some e) text).2.1 ∧
    conn_id ∉ (handleTextFrame clients conn_id (some e) text).2.2 ∧
    (∀ info, (e.client_id, info) ∈ clients → e.client_id ≠ conn_id →
       info.senderClosed = false →
       e.client_id ∈ (handleTextFrame clients conn_id (some e) text).2.1) := by
  refine ⟨rfl, rfl, rfl, not_mem_broadcastToOthers_fst clients conn_id,
    not_mem_broadcastToOthers_snd clients conn_id, ?_⟩
  intro info hmem hne hopen
  exact mem_broadcastToOthers_fst clients conn_id e.client_id info hmem hne hopen

/-- Witness for C10: alice's connection sends an envelope naming bob; the
relayed event is attributed to bob at timestamp 42, and bob — the named
identity — receives it while alice does not. -/
theorem envelope_attribution_trusted_witness :
    (handleTextFrame
        [("alice", { senderClosed := false, connected_at := 1 }),
         ("bob", { senderClosed := false, connected_at := 2 })] "alice"
        (some { type := .chat, client_id := "bob", content := "spoof", timestamp := 42 })
        "raw").1.client_id = "bob" ∧
    "bob" ∈ (handleTextFrame
        [("alice", { senderClosed := false, connected_at := 1 }),
         ("bob", { senderClosed := false, connected_at := 2 })] "alice"
        (some { type := .chat, client_id := "bob", content := "spoof", timestamp := 42 })
        "raw").2.1 :=
  ⟨(envelope_attribution_trusted
      [("alice", { senderClosed := false, connected_at := 1 }),
       ("bob", { senderClosed := false, connected_at := 2 })] "alice"
      { type := .chat, client_id := "bob", content := "spoof", timestamp := 42 } "raw").1,
   (envelope_attribution_trusted
      [("alice", { senderClosed := false, connected_at := 1 }),
       ("bob", { senderClosed := false, connected_at := 2 })] "alice"
      { type := .chat, client_id := "bob", content := "spoof", timestamp := 42 }
      "raw").2.2.2.2.2 { senderClosed := false, connected_at := 2 } (by decide)
     (by decide) rfl⟩

/-- C8, counterexample: the claim fails as stated on two counts.  First,
a content of exactly 10,000 characters is not always accepted:
`MessageContent::new` compares the UTF-8 byte length (`String::len`), so
10,000 copies of the three-byte character 'あ' (length 10,000 characters,
30,000 bytes) are rejected.  Second, an empty identity is not rejected
before any mutation of membership: `websocket_handler` registers the raw
query string without constructing a `ClientId`, so admission with the
empty identity succeeds and the empty string reaches the connection
registry. -/
theorem validation_before_mutation_counterexample :
    ((String.mk (List.replicate 10000 'あ')).length = 10000 ∧
      (MessageContent.new (String.mk (List.replicate 10000 'あ'))).isOk = false) ∧
    ((handlerAdmission (initState 10 100) "" 0).1 = .ok () ∧
      containsKey (handlerAdmission (initState 10 100) "" 0).2.connected_clients "" =
        true) := by
  have hlen : (String.mk (List.replicate 10000 'あ')).length = 10000 := by
    show (List.replicate 10000 'あ').length = 10000
    exact List.length_replicate 10000 'あ'
  have hbytes : rustLen (String.mk (List.replicate 10000 'あ')) = 30000 := by
    have h3 : 'あ'.utf8Size = 3 := by decide
    rw [rustLen_replicate, h3]
  have hne : String.mk (List.replicate 10000 'あ') ≠ "" := by
    intro h
    have h0 := congrArg String.length h
    rw [hlen] at h0
    simp at h0
  have hrej : MessageContent.new (String.mk (List.replicate 10000 'あ')) =
      .error (.MessageContentTooLong 10000 30000) := by
    unfold MessageContent.new
    rw [if_neg hne, hbytes, if_pos (by norm_num)]
  refine ⟨⟨hlen, ?_⟩, rfl, rfl⟩
  rw [hrej]
  rfl

/-- C8, amended: validation happens at value-object construction, with
lengths measured in UTF-8 bytes (Rust `String::len`): `ClientId::new`
rejects the empty string and every identity over 100 bytes (hence every
identity over 100 characters), and `MessageContent::new` rejects the
empty string and every content over 10,000 bytes (hence every content
over 10,000 characters); content of exactly 10,000 bytes is accepted and
content of 10,001 bytes is rejected with a length-exceeded error.  The
constructors are pure, so an input they reject never produces a value
that could be handed to the membership store; the `websocket_handler`
admission path, however, registers the query identity without
constructing a `ClientId` (see the counterexample). -/
theorem validation_at_construction (s : String) :
    (s = "" → ClientId.new s = .error .ClientIdEmpty) ∧
    (100 < rustLen s → (ClientId.new s).isOk = false) ∧
    (100 < s.length → (ClientId.new s).isOk = false) ∧
    (s ≠ "" → rustLen s ≤ 100 → ClientId.new s = .ok ⟨s⟩) ∧
    (s = "" → MessageContent.new s = .error .MessageContentEmpty) ∧
    (10000 < rustLen s → (MessageContent.new s).isOk = false) ∧
    (10000 < s.length → (MessageContent.new s).isOk = false) ∧
    (s ≠ "" → rustLen s ≤ 10000 → MessageContent.new s = .ok ⟨s⟩) ∧
    (rustLen s = 10001 →
       MessageContent.new s = .error (.MessageContentTooLong 10000 10001)) := by
  have hid_long : 100 < rustLen s → (ClientId.new s).isOk = false := by
    intro h
    have hne : s ≠ "" := by
      intro he
      rw [he] at h
      simp [rustLen] at h
    simp [ClientId.new, hne, h, Except.isOk, Except.toBool]
  have hmc_long : 10000 < rustLen s → (MessageContent.new s).isOk = false := by
    intro h
    have hne : s ≠ "" := by
      intro he
      rw [he] at h
      simp [rustLen] at h
    simp [MessageContent.new, hne, h, Except.isOk, Except.toBool]
  refine ⟨?_, hid_long, ?_, ?_, ?_, hmc_long, ?_, ?_, ?_⟩
  · intro h
    simp [ClientId.new, h]
  · intro h
    exact hid_long (lt_of_lt_of_le h (length_le_rustLen s))
  · intro hne hle
    simp [ClientId.new, hne, Nat.not_lt.mpr hle]
  · intro h
    simp [MessageContent.new, h]
  · intro h
    exact hmc_long (lt_of_lt_of_le h (length_le_rustLen s))
  · intro hne hle
    simp [MessageContent.new, hne, Nat.not_lt.mpr hle]
  · intro h
    have hne : s ≠ "" := by
      intro he
      rw [he] at h
      simp [rustLen] at h
    simp [MessageContent.new, hne, h]

/-- Witness for C8's amended theorem: "alice" is a valid identity and
"hi" a valid content; the empty identity and the empty content are
rejected with the matching validation errors. -/
theorem validation_at_construction_witness :
    ClientId.new "alice" = .ok ⟨"alice"⟩ ∧
    MessageContent.new "hi" = .ok ⟨"hi"⟩ ∧
    ClientId.new "" = .error .ClientIdEmpty ∧
    MessageContent.new "" = .error .MessageContentEmpty :=
  ⟨(validation_at_construction "alice").2.2.2.1 (by decide) (by decide),
   (validation_at_construction "hi").2.2.2.2.2.2.2.1 (by decide) (by decide),
   (validation_at_construction "").1 rfl,
   (validation_at_construction "").2.2.2.2.1 rfl⟩

end ChatApp
